import Mathlib

/-!
Shallow embedding, in Lean 4, of the transactional property-graph layer of the
Morpheus repository (src/graph/mod.rs), together with models of the external
collaborators it is written against (the neb cell store and transaction client,
the bifrost RPC/consensus layer) and of the repository modules that are not
part of the provided sources (graph/vertex.rs, graph/edge/*, graph/id_list.rs,
graph/fields.rs, server/schema.rs); the latter are modelled from the
specification document and each such definition is marked
`Modelled from the spec:` in its doc comment.

Rust `Result<T, E>` is embedded as `Except E T`; the stateful neb transaction
handle is embedded as explicit state passing over `TxnState`, which carries the
transaction's snapshot store together with a log of the storage interactions
issued through it, so that "no storage interaction" claims can be stated as
state preservation.
-/

set_option linter.unusedVariables false

namespace Morpheus

/-- neb cell identifier: two machine words (neb::ram::types::Id). -/
structure Id where
  higher : Nat
  lower : Nat
deriving DecidableEq

/-- The null identifier, neb Id::unit_id(). -/
def Id.unit_id : Id := ⟨0, 0⟩

/-- Modelled from the spec: the reserved hidden-adjacency field key ids of
graph/fields.rs (not under src/) — `key_hash` images of the three reserved
field names; all that matters to the graph layer is that they are three fixed,
pairwise-distinct key ids. -/
def INBOUND_KEY_ID : Nat := 1

/-- Modelled from the spec: see INBOUND_KEY_ID. -/
def OUTBOUND_KEY_ID : Nat := 2

/-- Modelled from the spec: see INBOUND_KEY_ID. -/
def UNDIRECTED_KEY_ID : Nat := 3

/-- neb data value (the constructors the graph layer manipulates: id values,
scalar payloads, field maps, and id arrays backing the Id List cells). -/
inductive Value where
  | Id (id : Id)
  | U64 (n : Nat)
  | Map (m : List (Nat × Value))
  | IdArray (ids : List Id)

/-- A cell's field map, keyed by field key id (neb::ram::types::Map). -/
abbrev Map := List (Nat × Value)

/-- Field lookup by key id on a map. -/
def Map.lookup_id : Map → Nat → Option Value
  | [], _ => none
  | (k0, v0) :: rest, k => if k0 = k then some v0 else Map.lookup_id rest k

/-- neb Map::insert_key_id: bind a key id to a value, replacing an existing
binding in place, or appending a fresh binding at the end of the map. -/
def Map.insert_key_id : Map → Nat → Value → Map
  | [], k, v => [(k, v)]
  | (k0, v0) :: rest, k, v =>
    if k0 = k then (k, v) :: rest else (k0, v0) :: Map.insert_key_id rest k v

/-- edge::EdgeType: the direction class of an edge schema. -/
inductive EdgeType where
  | Directed
  | Undirected
deriving DecidableEq

/-- edge::EdgeAttributes: schema-level descriptor fixing the direction class
and the requires-body flag (spec §3 Edge Attributes). -/
structure EdgeAttributes where
  edge_type : EdgeType
  has_body : Bool
deriving DecidableEq

/-- server::schema::SchemaType: classification of a registered schema. -/
inductive SchemaType where
  | Vertex
  | Edge (attrs : EdgeAttributes)
deriving DecidableEq

/-- neb field-layout descriptor (its internal structure is irrelevant to every
claim settled here; only its identity is ever consulted). -/
structure Field where
  name : String
deriving DecidableEq

/-- neb::ram::schema::Schema — the schema record the graph layer constructs
when bootstrapping (id, name, optional key field, field layout). -/
structure Schema where
  id : Nat
  name : String
  key_field : Option (List String)
  fields : Field
deriving DecidableEq

/-- neb Schema::new_with_id, as called at src/graph/mod.rs line 114. -/
def Schema.new_with_id (id : Nat) (name : String) (key_field : Option (List String))
    (fields : Field) : Schema :=
  ⟨id, name, key_field, fields⟩

/-- server::schema::SchemaContainer, in the role mod.rs consults it: resolve a
schema id to its SchemaType and to its underlying neb schema. Modelled as the
pair of (pure) lookup functions of the catalog's current contents. -/
structure SchemaContainer where
  schema_type : Nat → Option SchemaType
  get_neb_schema : Nat → Option Schema

/-- neb cell: identifier, schema id, and data value. -/
structure Cell where
  id : Id
  schema : Nat
  data : Value

/-- Modelled from the spec: neb Cell::encode_cell_key (spec §6 encode_key) —
the deterministic cell identifier derived from a schema id and a serialized
primary key; serialization of the generic key is abstracted to its codeword. -/
def Cell.encode_cell_key (schema_id : Nat) (key : Nat) : Id :=
  ⟨schema_id, key⟩

/-- bifrost RPC failure (modelled opaque: only its identity matters). -/
inductive RPCError where
  | Disconnected
deriving DecidableEq

/-- neb read failure: the variant mod.rs pattern-matches on, plus a
representative other failure. -/
inductive ReadError where
  | CellDoesNotExisted
  | NetworkingError
deriving DecidableEq

/-- neb write failure (modelled opaque). -/
inductive WriteError where
  | NetworkingError
deriving DecidableEq

/-- neb transaction-engine failure (the outer layer of every transactional
result): an abort, or a conflict the engine could not realize. -/
inductive TxnError where
  | Aborted
  | NotRealizable
deriving DecidableEq

/-- bifrost raft state-machine ExecError (modelled opaque). -/
inductive ExecError where
  | Unreachable
  | CannotConstruct
deriving DecidableEq

/-- src/graph/mod.rs lines 21-29. -/
inductive NewVertexError where
  | SchemaNotFound
  | SchemaNotVertex
  | CannotGenerateCellByData
  | DataNotMap
  | RPCError (e : RPCError)
  | WriteError (e : WriteError)
deriving DecidableEq

/-- src/graph/mod.rs lines 31-35. -/
inductive ReadVertexError where
  | RPCError (e : RPCError)
  | ReadError (e : ReadError)
deriving DecidableEq

/-- Modelled from the spec: id_list::IdListError (graph/id_list.rs not under
src/); §4.2: inner failures of the Id List are domain-level corruption and
member-not-found. -/
inductive IdListError where
  | Corrupted
  | MemberNotFound
deriving DecidableEq

/-- Modelled from the spec: edge::EdgeError (graph/edge/* not under src/);
carries the §4.4 precondition failures (wrong schema, body-presence mismatch)
and the §4.2/§4.5 resolution failures. -/
inductive EdgeError where
  | WrongSchema
  | CellNotFound
  | BodyRequired
  | BodyShouldNotExisted
  | IdListError (e : IdListError)
deriving DecidableEq

/-- src/graph/mod.rs lines 37-44. -/
inductive LinkVerticesError where
  | EdgeSchemaNotFound
  | SchemaNotEdge
  | BodyRequired
  | BodyShouldNotExisted
  | EdgeError (e : EdgeError)
deriving DecidableEq

/-- Modelled from the spec: vertex::RemoveError (graph/vertex.rs not under
src/); §4.3: remove validates existence before deleting the backing cell. -/
inductive RemoveError where
  | CellNotFound
deriving DecidableEq

/-- src/graph/mod.rs lines 52-57. -/
inductive EdgeDirection where
  | Inbound
  | Outbound
  | Undirected
deriving DecidableEq

/-- src/graph/mod.rs lines 59-67: EdgeDirection::as_field. -/
def EdgeDirection.as_field : EdgeDirection → Nat
  | .Inbound => INBOUND_KEY_ID
  | .Outbound => OUTBOUND_KEY_ID
  | .Undirected => UNDIRECTED_KEY_ID

/-- graph::vertex::Vertex: the in-memory projection of a stored cell. -/
structure Vertex where
  cell : Cell

/-- The vertex's schema id (vertex.schema() in mod.rs line 70). -/
def Vertex.schema (v : Vertex) : Nat := v.cell.schema

/-- Modelled from the spec: Vertex::new (graph/vertex.rs not under src/);
§4.3: create builds an unsaved vertex carrying the schema id and the user data
map (the adjacency fields are added by vertex_to_cell_for_write). -/
def Vertex.new (schema_id : Nat) (data : Map) : Vertex :=
  ⟨⟨Id.unit_id, schema_id, Value.Map data⟩⟩

/-- Modelled from the spec: vertex::cell_to_vertex (graph/vertex.rs not under
src/); §4.3 materialize: reconstruct a Vertex from a stored cell. -/
def cell_to_vertex (c : Cell) : Vertex := ⟨c⟩

/-- Modelled from the spec: the typed edge value returned by link (§4.4 step
3) — both endpoint identifiers and the optional body-cell identifier. -/
structure BilateralEdgeData where
  from_id : Id
  to_id : Id
  body : Option Id
deriving DecidableEq

/-- graph::edge::Edge: the Directed/Undirected variants (mod.rs lines 230-235
wrap the bilateral edge into these constructors). -/
inductive Edge where
  | Directed (e : BilateralEdgeData)
  | Undirected (e : BilateralEdgeData)
deriving DecidableEq

/-- The snapshot contents of the cell store: an association of cell ids to
cells. -/
abbrev Store := List (Id × Cell)

/-- Cell lookup in a store snapshot. -/
def storeGet : Store → Id → Option Cell
  | [], _ => none
  | (i, c) :: rest, id => if i = id then some c else storeGet rest id

/-- Insert-or-replace of a cell in a store snapshot. -/
def storeInsert : Store → Id → Cell → Store
  | [], id, c => [(id, c)]
  | (i, c0) :: rest, id, c =>
    if i = id then (id, c) :: rest else (i, c0) :: storeInsert rest id c

/-- Removal of a cell from a store snapshot. -/
def storeErase : Store → Id → Store
  | [], _ => []
  | (i, c0) :: rest, id =>
    if i = id then storeErase rest id else (i, c0) :: storeErase rest id

/-- State of one bound neb transaction: the transaction's snapshot store plus
a log of the storage interactions issued through it (read count, write log,
remove log), so that "no storage interaction" is statable as state equality. -/
structure TxnState where
  store : Store
  reads : Nat
  writes : List Cell
  removes : List Id

/-- The state of a freshly opened transaction over a store snapshot. -/
def TxnState.init (s : Store) : TxnState := ⟨s, 0, [], []⟩

/-- neb transaction read (spec §6): returns the cell under the transaction's
snapshot; in this sequential model a read never fails at the engine level. -/
def Transaction.read (id : Id) (st : TxnState) : Except TxnError (Option Cell × TxnState) :=
  .ok (storeGet st.store id, { st with reads := st.reads + 1 })

/-- neb transaction write (spec §6). -/
def Transaction.write (c : Cell) (st : TxnState) : Except TxnError TxnState :=
  .ok { st with store := storeInsert st.store c.id c, writes := st.writes ++ [c] }

/-- neb transaction update (modelled as a logged overwrite of the cell). -/
def Transaction.update (c : Cell) (st : TxnState) : Except TxnError TxnState :=
  .ok { st with store := storeInsert st.store c.id c, writes := st.writes ++ [c] }

/-- neb transaction remove (spec §6). -/
def Transaction.remove (id : Id) (st : TxnState) : Except TxnError TxnState :=
  .ok { st with store := storeErase st.store id, removes := st.removes ++ [id] }

/-- Modelled from the spec: id_list::ID_LIST_SCHEMA_ID (graph/id_list.rs not
under src/) — one of the two process-wide reserved bootstrap schema ids (§6). -/
def ID_LIST_SCHEMA_ID : Nat := 100

/-- Modelled from the spec: id_list::TYPE_LIST_SCHEMA_ID, the second reserved
bootstrap schema id. -/
def TYPE_LIST_SCHEMA_ID : Nat := 101

/-- Modelled from the spec: the field layout of the generic list-of-ids
bootstrap schema (id_list::ID_LINKED_LIST). -/
def ID_LINKED_LIST : Field := ⟨"id_linked_list"⟩

/-- Modelled from the spec: the field layout of the type-qualified
list-of-lists bootstrap schema (id_list::ID_TYPE_LIST). -/
def ID_TYPE_LIST : Field := ⟨"id_type_list"⟩

/-- Modelled from the spec: the deterministic cell identifier of the Id List
keyed by (owner vertex identifier, direction field, edge-schema identifier)
(spec §3 Id List). -/
def idListCellId (owner : Id) (field : Nat) (schema_id : Nat) : Id :=
  ⟨owner.higher * 31 + field, owner.lower * 31 + schema_id⟩

/-- Modelled from the spec: IdList::all (§4.2) — enumerate the full member
sequence under the transaction's snapshot; an absent head segment (the head is
materialized lazily on first link, §3) is the empty list; a malformed segment
is domain-level corruption. The chained-segment refinement of §4.2 is
irrelevant to every claim settled here, so the member sequence is held in the
head segment. -/
def IdList.all (owner : Id) (field : Nat) (schema_id : Nat) (st : TxnState) :
    Except TxnError (Except IdListError (List Id) × TxnState) :=
  match Transaction.read (idListCellId owner field schema_id) st with
  | .error e => .error e
  | .ok (none, st1) => .ok (.ok [], st1)
  | .ok (some c, st1) =>
    match c.data with
    | Value.IdArray ids => .ok (.ok ids, st1)
    | _ => .ok (.error IdListError.Corrupted, st1)

/-- Modelled from the spec: IdList::append (§4.2) — lazily create the head
segment via a bootstrapped schema if absent, else append at the tail, all
within the same transaction. -/
def IdList.append (owner : Id) (field : Nat) (schema_id : Nat) (member : Id) (st : TxnState) :
    Except TxnError (Except IdListError Unit × TxnState) :=
  match Transaction.read (idListCellId owner field schema_id) st with
  | .error e => .error e
  | .ok (none, st1) =>
    match Transaction.write ⟨idListCellId owner field schema_id, ID_LIST_SCHEMA_ID,
        Value.IdArray [member]⟩ st1 with
    | .error e => .error e
    | .ok st2 => .ok (.ok (), st2)
  | .ok (some c, st1) =>
    match c.data with
    | Value.IdArray ids =>
      match Transaction.update ⟨c.id, c.schema, Value.IdArray (ids ++ [member])⟩ st1 with
      | .error e => .error e
      | .ok st2 => .ok (.ok (), st2)
    | _ => .ok (.error IdListError.Corrupted, st1)

/-- Modelled from the spec: the deterministic identifier of a freshly written
edge body cell (§4.4 step 1). -/
def edgeBodyCellId (schema_id : Nat) (a b : Id) : Id :=
  ⟨a.higher * 31 + b.higher + schema_id, a.lower * 31 + b.lower + 1⟩

/-- Modelled from the spec: §4.4 step 1 — when a body is supplied, write the
edge's own data cell inside the caller's transaction and capture its id. -/
def linkWriteBody (schema_id : Nat) (a b : Id) (body : Option Map) (st : TxnState) :
    Except TxnError (Option Id × TxnState) :=
  match body with
  | none => .ok (none, st)
  | some m =>
    let c : Cell := ⟨edgeBodyCellId schema_id a b, schema_id, Value.Map m⟩
    match Transaction.write c st with
    | .error e => .error e
    | .ok st1 => .ok (some c.id, st1)

/-- Modelled from the spec: §4.4 step 2 — register the edge's identifying id
into `a`'s Outbound list and `b`'s Inbound list (Directed), or into the
Undirected lists of both endpoints (Undirected). -/
def linkRegister (et : EdgeType) (schema_id : Nat) (a b : Id) (bodyId : Option Id)
    (st : TxnState) : Except TxnError (Except IdListError Unit × TxnState) :=
  match et with
  | .Directed =>
    match IdList.append a OUTBOUND_KEY_ID schema_id (bodyId.getD b) st with
    | .error e => .error e
    | .ok (.error le, st1) => .ok (.error le, st1)
    | .ok (.ok _, st1) => IdList.append b INBOUND_KEY_ID schema_id (bodyId.getD a) st1
  | .Undirected =>
    match IdList.append a UNDIRECTED_KEY_ID schema_id (bodyId.getD b) st with
    | .error e => .error e
    | .ok (.error le, st1) => .ok (.error le, st1)
    | .ok (.ok _, st1) => IdList.append b UNDIRECTED_KEY_ID schema_id (bodyId.getD a) st1

/-- Modelled from the spec: BilateralEdge::link (graph/edge/bilateral.rs not
under src/), §4.4: preconditions checked before any write — the schema must
resolve to an Edge schema and the body presence must match its requires-body
flag — then the atomic steps (body-cell write, Id List registration) within
the caller's transaction, returning the typed edge value. -/
def BilateralEdge.link (et : EdgeType) (schemas : SchemaContainer) (schema_id : Nat)
    (a b : Id) (body : Option Map) (st : TxnState) :
    Except TxnError (Except EdgeError BilateralEdgeData × TxnState) :=
  match schemas.schema_type schema_id with
  | some (SchemaType.Edge ea) =>
    match body, ea.has_body with
    | none, true => .ok (.error EdgeError.BodyRequired, st)
    | some _, false => .ok (.error EdgeError.BodyShouldNotExisted, st)
    | _, _ =>
      match linkWriteBody schema_id a b body st with
      | .error e => .error e
      | .ok (bodyId, st1) =>
        match linkRegister et schema_id a b bodyId st1 with
        | .error e => .error e
        | .ok (.error le, st2) => .ok (.error (EdgeError.IdListError le), st2)
        | .ok (.ok _, st2) => .ok (.ok ⟨a, b, bodyId⟩, st2)
  | _ => .ok (.error EdgeError.WrongSchema, st)

/-- Modelled from the spec: edge::directed::DirectedEdge::link, as invoked at
src/graph/mod.rs line 230. -/
def DirectedEdge.link (schemas : SchemaContainer) (schema_id : Nat) (a b : Id)
    (body : Option Map) (st : TxnState) :
    Except TxnError (Except EdgeError BilateralEdgeData × TxnState) :=
  BilateralEdge.link EdgeType.Directed schemas schema_id a b body st

/-- Modelled from the spec: edge::undirectd::UndirectedEdge::link, as invoked
at src/graph/mod.rs line 234. -/
def UndirectedEdge.link (schemas : SchemaContainer) (schema_id : Nat) (a b : Id)
    (body : Option Map) (st : TxnState) :
    Except TxnError (Except EdgeError BilateralEdgeData × TxnState) :=
  BilateralEdge.link EdgeType.Undirected schemas schema_id a b body st

/-- Modelled from the spec: the pure resolution of one Id List member id into a
fully-typed edge via the Schema Catalog and the stored cell (§4.5), under one
snapshot: an absent cell is a resolution failure; an unregistered schema is a
resolution failure; otherwise the member resolves to a typed edge. -/
def resolveEdge (schemas : SchemaContainer) (store : Store) (vertexId : Id) (id : Id) :
    Except EdgeError Edge :=
  match storeGet store id with
  | none => .error EdgeError.CellNotFound
  | some c =>
    match schemas.schema_type c.schema with
    | none => .error EdgeError.WrongSchema
    | some SchemaType.Vertex => .ok (Edge.Directed ⟨vertexId, id, none⟩)
    | some (SchemaType.Edge ea) =>
      match ea.edge_type with
      | .Directed => .ok (Edge.Directed ⟨vertexId, id, some id⟩)
      | .Undirected => .ok (Edge.Undirected ⟨vertexId, id, some id⟩)

/-- Modelled from the spec: edge::from_id, as invoked at src/graph/mod.rs
lines 268-270 — reads the member's cell through the bound transaction and
resolves it under the snapshot. -/
def Edge.from_id (schemas : SchemaContainer) (vertexId : Id) (vertexField : Nat)
    (schema_id : Nat) (id : Id) (st : TxnState) :
    Except TxnError (Except EdgeError Edge × TxnState) :=
  match Transaction.read id st with
  | .error e => .error e
  | .ok (_, st1) => .ok (resolveEdge schemas st1.store vertexId id, st1)

/-- src/graph/mod.rs lines 69-95: vertex_to_cell_for_write. The external neb
Cell::new is the `cellNew` argument (it validates the data against the neb
schema and builds the cell; its verdict is outside this repository). -/
def vertex_to_cell_for_write (cellNew : Schema → Value → Option Cell)
    (schemas : SchemaContainer) (vertex : Vertex) : Except NewVertexError Cell :=
  let schema_id := vertex.schema
  match schemas.schema_type schema_id with
  | none => .error NewVertexError.SchemaNotFound
  | some stype =>
    if stype ≠ SchemaType.Vertex then .error NewVertexError.SchemaNotVertex
    else
      match schemas.get_neb_schema schema_id with
      | none => .error NewVertexError.SchemaNotFound
      | some neb_schema =>
        match vertex.cell.data with
        | Value.Map data =>
          let data1 := Map.insert_key_id data INBOUND_KEY_ID (Value.Id Id.unit_id)
          let data2 := Map.insert_key_id data1 OUTBOUND_KEY_ID (Value.Id Id.unit_id)
          let data3 := Map.insert_key_id data2 UNDIRECTED_KEY_ID (Value.Id Id.unit_id)
          match cellNew neb_schema (Value.Map data3) with
          | some cell => .ok cell
          | none => .error NewVertexError.CannotGenerateCellByData
        | _ => .error NewVertexError.DataNotMap

/-- Modelled from the spec: vertex::txn_remove (graph/vertex.rs not under
src/); §4.3: remove deletes the backing cell after existence validation, the
validation failure being the domain-level inner error. -/
def txn_remove (id : Id) (st : TxnState) :
    Except TxnError (Except RemoveError Unit × TxnState) :=
  match Transaction.read id st with
  | .error e => .error e
  | .ok (none, st1) => .ok (.error RemoveError.CellNotFound, st1)
  | .ok (some _, st1) =>
    match Transaction.remove id st1 with
    | .error e => .error e
    | .ok st2 => .ok (.ok (), st2)

/-- Modelled from the spec: vertex::txn_update (graph/vertex.rs not under
src/); §4.3 read_modify_write: inside the active transaction, read the current
vertex and either commit the closure's replacement or, if the closure yields
nothing, treat the operation as an intentional no-op commit rather than an
error; the spec defines no error channel for an absent vertex, so an absent
vertex likewise commits no change. -/
def txn_update (id : Id) (update : Vertex → Option Vertex) (st : TxnState) :
    Except TxnError TxnState :=
  match Transaction.read id st with
  | .error e => .error e
  | .ok (none, st1) => .ok st1
  | .ok (some cell, st1) =>
    match update (cell_to_vertex cell) with
    | none => .ok st1
    | some v2 =>
      match Transaction.update { cell with data := v2.cell.data } st1 with
      | .error e => .error e
      | .ok st2 => .ok st2

/-- src/graph/mod.rs lines 202-210: GraphTransaction::new_vertex — a
validation failure of vertex_to_cell_for_write is returned as the inner
result with no transactional write; on success the constructed cell is
written through the bound transaction. -/
def GraphTransaction.new_vertex (cellNew : Schema → Value → Option Cell)
    (schemas : SchemaContainer) (schema_id : Nat) (data : Map) (st : TxnState) :
    Except TxnError (Except NewVertexError Vertex × TxnState) :=
  let vertex := Vertex.new schema_id data
  match vertex_to_cell_for_write cellNew schemas vertex with
  | .error e => .ok (.error e, st)
  | .ok cell =>
    match Transaction.write cell st with
    | .error e => .error e
    | .ok st1 => .ok (.ok (cell_to_vertex cell), st1)

/-- src/graph/mod.rs lines 211-213: GraphTransaction::remove_vertex. -/
def GraphTransaction.remove_vertex (id : Id) (st : TxnState) :
    Except TxnError (Except RemoveError Unit × TxnState) :=
  txn_remove id st

/-- src/graph/mod.rs lines 214-219: GraphTransaction::remove_vertex_by_key. -/
def GraphTransaction.remove_vertex_by_key (schema_id : Nat) (key : Nat) (st : TxnState) :
    Except TxnError (Except RemoveError Unit × TxnState) :=
  GraphTransaction.remove_vertex (Cell.encode_cell_key schema_id key) st

/-- src/graph/mod.rs lines 221-237: GraphTransaction::link — resolve the
schema id in the catalog (an unresolved id and a non-edge schema are the
immediate inner errors), then dispatch on the edge type, wrapping the edge
layer's inner error into LinkVerticesError::EdgeError and the edge value into
the corresponding Edge variant. -/
def GraphTransaction.link (schemas : SchemaContainer) (schema_id : Nat)
    (from_id to_id : Id) (body : Option Map) (st : TxnState) :
    Except TxnError (Except LinkVerticesError Edge × TxnState) :=
  match schemas.schema_type schema_id with
  | some (SchemaType.Edge ea) =>
    match ea.edge_type with
    | EdgeType.Directed =>
      match DirectedEdge.link schemas schema_id from_id to_id body st with
      | .error e => .error e
      | .ok (.error le, st1) => .ok (.error (LinkVerticesError.EdgeError le), st1)
      | .ok (.ok ed, st1) => .ok (.ok (Edge.Directed ed), st1)
    | EdgeType.Undirected =>
      match UndirectedEdge.link schemas schema_id from_id to_id body st with
      | .error e => .error e
      | .ok (.error le, st1) => .ok (.error (LinkVerticesError.EdgeError le), st1)
      | .ok (.ok ed, st1) => .ok (.ok (Edge.Undirected ed), st1)
  | some _ => .ok (.error LinkVerticesError.SchemaNotEdge, st)
  | none => .ok (.error LinkVerticesError.EdgeSchemaNotFound, st)

/-- src/graph/mod.rs lines 238-241: GraphTransaction::update_vertex — note the
single-wrapped result: Result<(), TxnError> with no inner domain layer. -/
def GraphTransaction.update_vertex (id : Id) (update : Vertex → Option Vertex)
    (st : TxnState) : Except TxnError TxnState :=
  txn_update id update st

/-- src/graph/mod.rs lines 242-247: GraphTransaction::update_vertex_by_key. -/
def GraphTransaction.update_vertex_by_key (schema_id : Nat) (key : Nat)
    (update : Vertex → Option Vertex) (st : TxnState) : Except TxnError TxnState :=
  GraphTransaction.update_vertex (Cell.encode_cell_key schema_id key) update st

/-- src/graph/mod.rs lines 249-251: GraphTransaction::read_vertex — note the
single-wrapped result: Result<Option<Vertex>, TxnError>. -/
def GraphTransaction.read_vertex (id : Id) (st : TxnState) :
    Except TxnError (Option Vertex × TxnState) :=
  match Transaction.read id st with
  | .error e => .error e
  | .ok (c, st1) => .ok (c.map cell_to_vertex, st1)

/-- src/graph/mod.rs lines 253-257: GraphTransaction::get_vertex. -/
def GraphTransaction.get_vertex (schema_id : Nat) (key : Nat) (st : TxnState) :
    Except TxnError (Option Vertex × TxnState) :=
  GraphTransaction.read_vertex (Cell.encode_cell_key schema_id key) st

/-- src/graph/mod.rs lines 266-274: the member-resolution loop inside
GraphTransaction::neighbourhoods — resolve each member id in Id List order
through the bound transaction, pushing resolved edges onto the accumulator;
the first outer error propagates, and the first inner resolution error is
returned in place of any partial list. -/
def neighbourhoodsLoop (schemas : SchemaContainer) (vertexId : Id) (vertexField : Nat)
    (schema_id : Nat) : List Id → List Edge → TxnState →
    Except TxnError (Except EdgeError (List Edge) × TxnState)
  | [], edges, st => .ok (.ok edges, st)
  | id :: rest, edges, st =>
    match Edge.from_id schemas vertexId vertexField schema_id id st with
    | .error e => .error e
    | .ok (.error er, st1) => .ok (.error er, st1)
    | .ok (.ok e, st1) =>
      neighbourhoodsLoop schemas vertexId vertexField schema_id rest (edges ++ [e]) st1

/-- src/graph/mod.rs lines 259-278: GraphTransaction::neighbourhoods — load
the Id List for (vertex, direction field, edge schema), surface its inner
failure as EdgeError::IdListError, and otherwise resolve every member in
order through the loop. -/
def GraphTransaction.neighbourhoods (schemas : SchemaContainer) (vertex_id : Id)
    (schema_id : Nat) (ed : EdgeDirection) (st : TxnState) :
    Except TxnError (Except EdgeError (List Edge) × TxnState) :=
  let vertex_field := ed.as_field
  match IdList.all vertex_id vertex_field schema_id st with
  | .error e => .error e
  | .ok (.error e, st1) => .ok (.error (EdgeError.IdListError e), st1)
  | .ok (.ok ids, st1) =>
    neighbourhoodsLoop schemas vertex_id vertex_field schema_id ids [] st1

/-- The spec's words for member resolution (§4.5, the refinement side of the
fail-fast claim): resolve the member ids one by one in Id List order and
fail fast — the first resolution error is the result, else the list of
resolved edges in order. -/
def resolveAllSpec (schemas : SchemaContainer) (store : Store) (vertexId : Id) :
    List Id → Except EdgeError (List Edge)
  | [] => .ok []
  | i :: rest =>
    match resolveEdge schemas store vertexId i with
    | .error e => .error e
    | .ok e =>
      match resolveAllSpec schemas store vertexId rest with
      | .error e2 => .error e2
      | .ok es => .ok (e :: es)

/-- graph::Graph (src/graph/mod.rs lines 97-100); the neb client handle is
modelled by passing the store snapshot to each facade operation. -/
structure Graph where
  schemas : SchemaContainer

/-- neb Client::transaction (spec §6): open a transaction over the current
store, run the closure once, and commit its final state on success; an error
from the closure surfaces to the caller. (The engine's retry-on-conflict loop
never fires in this sequential, single-caller model.) -/
def Client.transaction (store : Store) (func : TxnState → Except TxnError TxnState) :
    Except TxnError Store :=
  match func (TxnState.init store) with
  | .ok st => .ok st.store
  | .error e => .error e

/-- src/graph/mod.rs lines 183-193: Graph::graph_transaction — wrap the
closure with a GraphTransaction bound to a fresh neb transaction. -/
def Graph.graph_transaction (g : Graph) (store : Store)
    (func : SchemaContainer → TxnState → Except TxnError TxnState) :
    Except TxnError Store :=
  Client.transaction store (func g.schemas)

/-- src/graph/mod.rs lines 147-149: Graph::remove_vertex — runs
GraphTransaction::remove_vertex in a graph transaction and maps any inner
domain removal error to TxnError::Aborted (`.map_err(|_| TxnError::Aborted)`). -/
def Graph.remove_vertex (g : Graph) (store : Store) (id : Id) : Except TxnError Store :=
  Graph.graph_transaction g store (fun _ st =>
    match GraphTransaction.remove_vertex id st with
    | .error e => .error e
    | .ok (.error _, _) => .error TxnError.Aborted
    | .ok (.ok _, st1) => .ok st1)

/-- src/graph/mod.rs lines 150-154: Graph::remove_vertex_by_key. -/
def Graph.remove_vertex_by_key (g : Graph) (store : Store) (schema_id : Nat) (key : Nat) :
    Except TxnError Store :=
  Graph.remove_vertex g store (Cell.encode_cell_key schema_id key)

/-- src/graph/mod.rs lines 155-160: Graph::update_vertex. -/
def Graph.update_vertex (g : Graph) (store : Store) (id : Id)
    (update : Vertex → Option Vertex) : Except TxnError Store :=
  Client.transaction store (fun st => txn_update id update st)

/-- src/graph/mod.rs lines 161-166: Graph::update_vertex_by_key. -/
def Graph.update_vertex_by_key (g : Graph) (store : Store) (schema_id : Nat) (key : Nat)
    (update : Vertex → Option Vertex) : Except TxnError Store :=
  Graph.update_vertex g store (Cell.encode_cell_key schema_id key) update

/-- src/graph/mod.rs lines 168-175: Graph::read_vertex — the neb client's
non-transactional read_cell (external RPC, spec §6) is the readCell argument;
the cell-does-not-exist inner read error is mapped to a successful None, every
other read error to ReadVertexError::ReadError, and a transport failure to
ReadVertexError::RPCError. -/
def Graph.read_vertex (readCell : Id → Except RPCError (Except ReadError Cell))
    (id : Id) : Except ReadVertexError (Option Vertex) :=
  match readCell id with
  | .error e => .error (ReadVertexError.RPCError e)
  | .ok (.error ReadError.CellDoesNotExisted) => .ok none
  | .ok (.error e) => .error (ReadVertexError.ReadError e)
  | .ok (.ok cell) => .ok (some (cell_to_vertex cell))

/-- src/graph/mod.rs lines 177-181: Graph::get_vertex. -/
def Graph.get_vertex (readCell : Id → Except RPCError (Except ReadError Cell))
    (schema_id : Nat) (key : Nat) : Except ReadVertexError (Option Vertex) :=
  Graph.read_vertex readCell (Cell.encode_cell_key schema_id key)

/-- Modelled from the spec: the neb client's read_cell over a store snapshot
(spec §6 read: cell, not-found, or error) — an absent cell reads as the
CellDoesNotExisted inner error. -/
def Client.read_cell (store : Store) (id : Id) : Except RPCError (Except ReadError Cell) :=
  .ok (match storeGet store id with
    | some c => .ok c
    | none => .error ReadError.CellDoesNotExisted)

/-- src/graph/mod.rs lines 110-122: Graph::check_schema — an upsert-if-absent:
when the catalog has no neb schema under the id, register one through the
external consensus-backed client (the `reg` argument); the returned list
records the schemas registered, so that "no registration" is statable. -/
def Graph.check_schema (schemas : SchemaContainer) (reg : Schema → Except ExecError Unit)
    (schema_id : Nat) (schema_name : String) (fields : Field) :
    Except ExecError (List Schema) :=
  match schemas.get_neb_schema schema_id with
  | none =>
    let s := Schema.new_with_id schema_id schema_name none fields
    match reg s with
    | .ok _ => .ok [s]
    | .error e => .error e
  | some _ => .ok []

/-- src/graph/mod.rs lines 123-127: Graph::check_base_schemas — bootstrap the
two built-in Id List schemas in order, failing fast on a registration error. -/
def Graph.check_base_schemas (schemas : SchemaContainer)
    (reg : Schema → Except ExecError Unit) : Except ExecError (List Schema) :=
  match Graph.check_schema schemas reg ID_LIST_SCHEMA_ID "_NEB_ID_LIST" ID_LINKED_LIST with
  | .error e => .error e
  | .ok r1 =>
    match Graph.check_schema schemas reg TYPE_LIST_SCHEMA_ID "_NEB_TYPE_ID_LIST" ID_TYPE_LIST with
    | .error e => .error e
    | .ok r2 => .ok (r1 ++ r2)

/-- src/graph/mod.rs lines 103-109: Graph::new — bootstrap failure is fatal to
construction; on success the constructed facade is returned together with the
record of the registrations the bootstrap performed. -/
def Graph.new (schemas : SchemaContainer) (reg : Schema → Except ExecError Unit) :
    Except ExecError (Graph × List Schema) :=
  match Graph.check_base_schemas schemas reg with
  | .error e => .error e
  | .ok regs => .ok (⟨schemas⟩, regs)

/-- The public methods of GraphTransaction (the impl block at src/graph/mod.rs
lines 201-279). -/
inductive GTMethod where
  | new_vertex
  | remove_vertex
  | remove_vertex_by_key
  | link
  | update_vertex
  | update_vertex_by_key
  | read_vertex
  | get_vertex
  | neighbourhoods
deriving DecidableEq

/-- Whether a method's result carries the double-wrapped form
Result<Result<T, DomainError>, TxnError>, or the single-wrapped form
Result<T, TxnError> with no inner domain-error layer. -/
inductive ResultWrapping where
  | doubleWrapped
  | singleWrapped
deriving DecidableEq

/-- The wrapping of each GraphTransaction method's result, read off the
signatures in src/graph/mod.rs (and mirrored by the types of the embedded
functions above):
new_vertex, line 203: Result<Result<Vertex, NewVertexError>, TxnError>;
remove_vertex, line 211, and remove_vertex_by_key, line 215:
Result<Result<(), RemoveError>, TxnError>;
link, line 222: Result<Result<Edge, LinkVerticesError>, TxnError>;
update_vertex, line 238, and update_vertex_by_key, line 243:
Result<(), TxnError> — single-wrapped;
read_vertex, line 249, and get_vertex, line 254:
Result<Option<Vertex>, TxnError> — single-wrapped;
neighbourhoods, line 260: Result<Result<Vec<Edge>, EdgeError>, TxnError>. -/
def resultWrapping : GTMethod → ResultWrapping
  | .new_vertex => .doubleWrapped
  | .remove_vertex => .doubleWrapped
  | .remove_vertex_by_key => .doubleWrapped
  | .link => .doubleWrapped
  | .update_vertex => .singleWrapped
  | .update_vertex_by_key => .singleWrapped
  | .read_vertex => .singleWrapped
  | .get_vertex => .singleWrapped
  | .neighbourhoods => .doubleWrapped

/-- The three hidden adjacency fields added to every vertex cell at creation,
each initialized to the null identifier (spec §3 Vertex, §6 persisted layout). -/
def adjFields : Map :=
  [(INBOUND_KEY_ID, Value.Id Id.unit_id),
   (OUTBOUND_KEY_ID, Value.Id Id.unit_id),
   (UNDIRECTED_KEY_ID, Value.Id Id.unit_id)]

/-- A sample catalog classifying every schema id as a vertex schema, used by
the concrete witnesses. -/
def sampleVertexCatalog : SchemaContainer :=
  ⟨fun _ => some SchemaType.Vertex, fun n => some (Schema.new_with_id n "v" none ⟨"f"⟩)⟩

/-- A sample store holding the Id List cell of (vertex ⟨0,0⟩, Outbound,
edge schema 4) with the single member ⟨5,5⟩, plus the member's cell; used by
the concrete witnesses. -/
def sampleStore : Store :=
  [(⟨2, 4⟩, ⟨⟨2, 4⟩, ID_LIST_SCHEMA_ID, Value.IdArray [⟨5, 5⟩]⟩),
   (⟨5, 5⟩, ⟨⟨5, 5⟩, 9, Value.U64 0⟩)]

/-! Helper lemmas. -/

/-- Inserting a key id that is absent from a map appends the binding. -/
theorem insert_key_id_of_lookup_none (m : Map) (k : Nat) (v : Value)
    (h : Map.lookup_id m k = none) : Map.insert_key_id m k v = m ++ [(k, v)] := by
  induction m with
  | nil => rfl
  | cons p rest ih =>
    obtain ⟨k0, v0⟩ := p
    by_cases hk : k0 = k
    · simp [Map.lookup_id, hk] at h
    · simp only [Map.lookup_id, hk, if_false] at h
      simp [Map.insert_key_id, hk, ih h]

/-- Lookup passes over a prefix in which the key is absent. -/
theorem lookup_id_append_of_none (m1 m2 : Map) (k : Nat)
    (h : Map.lookup_id m1 k = none) :
    Map.lookup_id (m1 ++ m2) k = Map.lookup_id m2 k := by
  induction m1 with
  | nil => rfl
  | cons p rest ih =>
    obtain ⟨k0, v0⟩ := p
    by_cases hk : k0 = k
    · simp [Map.lookup_id, hk] at h
    · simp only [Map.lookup_id, hk, if_false] at h
      simp [Map.lookup_id, hk, ih h]

/-- The three adjacency inserts performed by vertex_to_cell_for_write append
exactly the three adjacency bindings when the user map binds none of the
three reserved key ids. -/
theorem insert_adj_three (data : Map)
    (hin : Map.lookup_id data INBOUND_KEY_ID = none)
    (hout : Map.lookup_id data OUTBOUND_KEY_ID = none)
    (hund : Map.lookup_id data UNDIRECTED_KEY_ID = none) :
    Map.insert_key_id
      (Map.insert_key_id
        (Map.insert_key_id data INBOUND_KEY_ID (Value.Id Id.unit_id))
        OUTBOUND_KEY_ID (Value.Id Id.unit_id))
      UNDIRECTED_KEY_ID (Value.Id Id.unit_id) = data ++ adjFields := by
  have h1 : Map.insert_key_id data INBOUND_KEY_ID (Value.Id Id.unit_id) =
      data ++ [(INBOUND_KEY_ID, Value.Id Id.unit_id)] :=
    insert_key_id_of_lookup_none data _ _ hin
  have hout1 : Map.lookup_id (data ++ [(INBOUND_KEY_ID, Value.Id Id.unit_id)])
      OUTBOUND_KEY_ID = none := by
    rw [lookup_id_append_of_none _ _ _ hout]
    simp [Map.lookup_id, INBOUND_KEY_ID, OUTBOUND_KEY_ID]
  have h2 : Map.insert_key_id (data ++ [(INBOUND_KEY_ID, Value.Id Id.unit_id)])
      OUTBOUND_KEY_ID (Value.Id Id.unit_id) =
      data ++ [(INBOUND_KEY_ID, Value.Id Id.unit_id),
               (OUTBOUND_KEY_ID, Value.Id Id.unit_id)] := by
    rw [insert_key_id_of_lookup_none _ _ _ hout1, List.append_assoc]
    rfl
  have hund2 : Map.lookup_id (data ++ [(INBOUND_KEY_ID, Value.Id Id.unit_id),
      (OUTBOUND_KEY_ID, Value.Id Id.unit_id)]) UNDIRECTED_KEY_ID = none := by
    rw [lookup_id_append_of_none _ _ _ hund]
    simp [Map.lookup_id, INBOUND_KEY_ID, OUTBOUND_KEY_ID, UNDIRECTED_KEY_ID]
  rw [h1, h2, insert_key_id_of_lookup_none _ _ _ hund2, List.append_assoc]
  rfl

/-- Erasing an id from a store makes its lookup miss. -/
theorem storeGet_storeErase_self (s : Store) (id : Id) :
    storeGet (storeErase s id) id = none := by
  induction s with
  | nil => rfl
  | cons p rest ih =>
    obtain ⟨i, c⟩ := p
    by_cases hi : i = id
    · simp [storeErase, hi, ih]
    · simp [storeErase, storeGet, hi, ih]

/-- The neighbourhoods member loop equals the spec's fail-fast in-order
resolution over the snapshot, and only reads: the resulting state keeps the
store, the write log and the remove log of the entry state. -/
theorem neighbourhoodsLoop_eq_resolveAllSpec (schemas : SchemaContainer)
    (vertexId : Id) (vertexField : Nat) (schema_id : Nat) :
    ∀ (ids : List Id) (acc : List Edge) (st : TxnState),
      ∃ st2, neighbourhoodsLoop schemas vertexId vertexField schema_id ids acc st =
          .ok ((match resolveAllSpec schemas st.store vertexId ids with
                | .error e => .error e
                | .ok es => .ok (acc ++ es)), st2) ∧
        st2.store = st.store ∧ st2.writes = st.writes ∧ st2.removes = st.removes := by
  intro ids
  induction ids with
  | nil =>
    intro acc st
    exact ⟨st, by simp [neighbourhoodsLoop, resolveAllSpec], rfl, rfl, rfl⟩
  | cons i rest ih =>
    intro acc st
    simp only [neighbourhoodsLoop, Edge.from_id, Transaction.read]
    cases hr : resolveEdge schemas st.store vertexId i with
    | error e =>
      refine ⟨{ st with reads := st.reads + 1 }, ?_, rfl, rfl, rfl⟩
      simp [resolveAllSpec, hr]
    | ok e =>
      obtain ⟨st2, heq, hstore, hw, hrem⟩ := ih (acc ++ [e]) { st with reads := st.reads + 1 }
      refine ⟨st2, ?_, hstore, hw, hrem⟩
      simp only [hr]
      rw [heq]
      cases hrest : resolveAllSpec schemas st.store vertexId rest with
      | error e2 => simp [resolveAllSpec, hr, hrest]
      | ok es => simp [resolveAllSpec, hr, hrest]

/-! Claim theorems. -/

/-- C2: for every call to GraphTransaction::link, an unresolved schema id
yields the inner error EdgeSchemaNotFound and a non-edge schema yields the
inner error SchemaNotEdge, in both cases immediately, with the transaction
state (snapshot store, read count, write log, remove log) unchanged — no
storage interaction through the bound transaction. -/
theorem c2_link_precondition_errors (schemas : SchemaContainer) (schema_id : Nat)
    (from_id to_id : Id) (body : Option Map) (st : TxnState) :
    (schemas.schema_type schema_id = none →
      GraphTransaction.link schemas schema_id from_id to_id body st =
        .ok (.error LinkVerticesError.EdgeSchemaNotFound, st)) ∧
    (schemas.schema_type schema_id = some SchemaType.Vertex →
      GraphTransaction.link schemas schema_id from_id to_id body st =
        .ok (.error LinkVerticesError.SchemaNotEdge, st)) := by
  constructor <;> intro h <;> simp [GraphTransaction.link, h]

/-- Witness for C2 at concrete inputs: an empty catalog misses the schema, and
a catalog holding only a Vertex schema under the id is not an edge schema. -/
theorem c2_link_precondition_errors_witness :
    GraphTransaction.link ⟨fun _ => none, fun _ => none⟩ 7 ⟨1, 1⟩ ⟨2, 2⟩ none
        (TxnState.init []) =
      .ok (.error LinkVerticesError.EdgeSchemaNotFound, TxnState.init []) ∧
    GraphTransaction.link ⟨fun _ => some SchemaType.Vertex, fun _ => none⟩ 7 ⟨1, 1⟩ ⟨2, 2⟩
        none (TxnState.init []) =
      .ok (.error LinkVerticesError.SchemaNotEdge, TxnState.init []) :=
  ⟨(c2_link_precondition_errors ⟨fun _ => none, fun _ => none⟩ 7 ⟨1, 1⟩ ⟨2, 2⟩ none
      (TxnState.init [])).1 rfl,
   (c2_link_precondition_errors ⟨fun _ => some SchemaType.Vertex, fun _ => none⟩ 7 ⟨1, 1⟩
      ⟨2, 2⟩ none (TxnState.init [])).2 rfl⟩

/-- C9: each by-key operation equals its by-id counterpart applied to the
deterministically encoded cell identifier, for the facade's
remove_vertex_by_key / update_vertex_by_key / get_vertex and the
transaction's remove_vertex_by_key / update_vertex_by_key / get_vertex, so
get, update and remove with the same (schema_id, key) address the same cell. -/
theorem c9_by_key_equals_by_id :
    (∀ (g : Graph) (store : Store) (schema_id key : Nat),
      Graph.remove_vertex_by_key g store schema_id key =
        Graph.remove_vertex g store (Cell.encode_cell_key schema_id key)) ∧
    (∀ (g : Graph) (store : Store) (schema_id key : Nat)
        (update : Vertex → Option Vertex),
      Graph.update_vertex_by_key g store schema_id key update =
        Graph.update_vertex g store (Cell.encode_cell_key schema_id key) update) ∧
    (∀ (readCell : Id → Except RPCError (Except ReadError Cell)) (schema_id key : Nat),
      Graph.get_vertex readCell schema_id key =
        Graph.read_vertex readCell (Cell.encode_cell_key schema_id key)) ∧
    (∀ (schema_id key : Nat) (st : TxnState),
      GraphTransaction.remove_vertex_by_key schema_id key st =
        GraphTransaction.remove_vertex (Cell.encode_cell_key schema_id key) st) ∧
    (∀ (schema_id key : Nat) (update : Vertex → Option Vertex) (st : TxnState),
      GraphTransaction.update_vertex_by_key schema_id key update st =
        GraphTransaction.update_vertex (Cell.encode_cell_key schema_id key) update st) ∧
    (∀ (schema_id key : Nat) (st : TxnState),
      GraphTransaction.get_vertex schema_id key st =
        GraphTransaction.read_vertex (Cell.encode_cell_key schema_id key) st) :=
  ⟨fun _ _ _ _ => rfl, fun _ _ _ _ _ => rfl, fun _ _ _ => rfl,
   fun _ _ _ => rfl, fun _ _ _ _ => rfl, fun _ _ _ => rfl⟩

/-- C8: for every call to link with an edge schema whose attributes require a
body, passing no body yields the body-required inner error, and for a
body-less edge schema, passing a body yields the body-should-not-exist inner
error; in both cases the transaction state is unchanged — zero store
interactions. (In the embedding the body errors surface through the
LinkVerticesError::EdgeError wrapper that mod.rs lines 230-235 apply to every
edge-layer inner error.) -/
theorem c8_link_body_mismatch (schemas : SchemaContainer) (schema_id : Nat)
    (from_id to_id : Id) (st : TxnState) (et : EdgeType) :
    (schemas.schema_type schema_id = some (SchemaType.Edge ⟨et, true⟩) →
      GraphTransaction.link schemas schema_id from_id to_id none st =
        .ok (.error (LinkVerticesError.EdgeError EdgeError.BodyRequired), st)) ∧
    (∀ m : Map, schemas.schema_type schema_id = some (SchemaType.Edge ⟨et, false⟩) →
      GraphTransaction.link schemas schema_id from_id to_id (some m) st =
        .ok (.error (LinkVerticesError.EdgeError EdgeError.BodyShouldNotExisted), st)) := by
  constructor
  · intro h
    cases et <;>
      simp [GraphTransaction.link, DirectedEdge.link, UndirectedEdge.link,
        BilateralEdge.link, h]
  · intro m h
    cases et <;>
      simp [GraphTransaction.link, DirectedEdge.link, UndirectedEdge.link,
        BilateralEdge.link, h]

/-- Witness for C8 at concrete inputs: a requires-body directed edge schema
with no body, and a body-less directed edge schema with a body. -/
theorem c8_link_body_mismatch_witness :
    GraphTransaction.link ⟨fun _ => some (SchemaType.Edge ⟨EdgeType.Directed, true⟩),
        fun _ => none⟩ 3 ⟨1, 1⟩ ⟨2, 2⟩ none (TxnState.init []) =
      .ok (.error (LinkVerticesError.EdgeError EdgeError.BodyRequired), TxnState.init []) ∧
    GraphTransaction.link ⟨fun _ => some (SchemaType.Edge ⟨EdgeType.Directed, false⟩),
        fun _ => none⟩ 3 ⟨1, 1⟩ ⟨2, 2⟩ (some [(4, Value.U64 0)]) (TxnState.init []) =
      .ok (.error (LinkVerticesError.EdgeError EdgeError.BodyShouldNotExisted),
           TxnState.init []) :=
  ⟨(c8_link_body_mismatch ⟨fun _ => some (SchemaType.Edge ⟨EdgeType.Directed, true⟩),
      fun _ => none⟩ 3 ⟨1, 1⟩ ⟨2, 2⟩ (TxnState.init []) EdgeType.Directed).1 rfl,
   (c8_link_body_mismatch ⟨fun _ => some (SchemaType.Edge ⟨EdgeType.Directed, false⟩),
      fun _ => none⟩ 3 ⟨1, 1⟩ ⟨2, 2⟩ (TxnState.init []) EdgeType.Directed).2
      [(4, Value.U64 0)] rfl⟩

/-- C10: GraphTransaction::new_vertex is atomic on validation failure — every
validation error of vertex_to_cell_for_write (absent schema, non-vertex
schema, non-map data, cell generation failure) is returned as the inner error
with the transaction state unchanged (no write issued), and on success the
constructed cell is written through exactly one transactional write. -/
theorem c10_new_vertex_atomic (cellNew : Schema → Value → Option Cell)
    (schemas : SchemaContainer) (schema_id : Nat) (data : Map) (st : TxnState) :
    (∀ err, vertex_to_cell_for_write cellNew schemas (Vertex.new schema_id data) = .error err →
      GraphTransaction.new_vertex cellNew schemas schema_id data st = .ok (.error err, st)) ∧
    (schemas.schema_type schema_id = none →
      vertex_to_cell_for_write cellNew schemas (Vertex.new schema_id data) =
        .error NewVertexError.SchemaNotFound) ∧
    (∀ ea, schemas.schema_type schema_id = some (SchemaType.Edge ea) →
      vertex_to_cell_for_write cellNew schemas (Vertex.new schema_id data) =
        .error NewVertexError.SchemaNotVertex) ∧
    (schemas.schema_type schema_id = some SchemaType.Vertex →
      schemas.get_neb_schema schema_id = none →
      vertex_to_cell_for_write cellNew schemas (Vertex.new schema_id data) =
        .error NewVertexError.SchemaNotFound) ∧
    (∀ (v : Vertex) (ns : Schema), schemas.schema_type v.schema = some SchemaType.Vertex →
      schemas.get_neb_schema v.schema = some ns →
      (∀ m, v.cell.data ≠ Value.Map m) →
      vertex_to_cell_for_write cellNew schemas v = .error NewVertexError.DataNotMap) ∧
    (∀ ns : Schema, schemas.schema_type schema_id = some SchemaType.Vertex →
      schemas.get_neb_schema schema_id = some ns →
      cellNew ns (Value.Map (Map.insert_key_id
        (Map.insert_key_id
          (Map.insert_key_id data INBOUND_KEY_ID (Value.Id Id.unit_id))
          OUTBOUND_KEY_ID (Value.Id Id.unit_id))
        UNDIRECTED_KEY_ID (Value.Id Id.unit_id))) = none →
      vertex_to_cell_for_write cellNew schemas (Vertex.new schema_id data) =
        .error NewVertexError.CannotGenerateCellByData) ∧
    (∀ cell, vertex_to_cell_for_write cellNew schemas (Vertex.new schema_id data) = .ok cell →
      GraphTransaction.new_vertex cellNew schemas schema_id data st =
        .ok (.ok (cell_to_vertex cell),
             { st with store := storeInsert st.store cell.id cell,
                       writes := st.writes ++ [cell] })) := by
  refine ⟨?_, ?_, ?_, ?_, ?_, ?_, ?_⟩
  · intro err h
    simp [GraphTransaction.new_vertex, h]
  · intro h
    simp [vertex_to_cell_for_write, Vertex.new, Vertex.schema, h]
  · intro ea h
    simp [vertex_to_cell_for_write, Vertex.new, Vertex.schema, h]
  · intro h1 h2
    simp [vertex_to_cell_for_write, Vertex.new, Vertex.schema, h1, h2]
  · intro v ns h1 h2 h3
    simp only [Vertex.schema] at h1 h2
    cases hd : v.cell.data with
    | Id i => simp [vertex_to_cell_for_write, Vertex.schema, h1, h2, hd]
    | U64 n => simp [vertex_to_cell_for_write, Vertex.schema, h1, h2, hd]
    | Map m => exact (h3 m hd).elim
    | IdArray l => simp [vertex_to_cell_for_write, Vertex.schema, h1, h2, hd]
  · intro ns h1 h2 h3
    simp [vertex_to_cell_for_write, Vertex.new, Vertex.schema, h1, h2, h3]
  · intro cell h
    simp [GraphTransaction.new_vertex, h, Transaction.write]

/-- Witness for C10 at concrete inputs: an empty catalog makes new_vertex fail
with the inner SchemaNotFound error and an unchanged transaction state, and a
vertex-schema catalog with a data-preserving cell builder makes new_vertex
succeed with exactly one write of the constructed cell. -/
theorem c10_new_vertex_atomic_witness :
    GraphTransaction.new_vertex (fun _ _ => none) ⟨fun _ => none, fun _ => none⟩ 5 []
        (TxnState.init []) =
      .ok (.error NewVertexError.SchemaNotFound, TxnState.init []) ∧
    GraphTransaction.new_vertex (fun s v => some ⟨⟨9, 9⟩, s.id, v⟩)
        ⟨fun _ => some SchemaType.Vertex,
         fun n => some (Schema.new_with_id n "v" none ⟨"f"⟩)⟩ 5 [] (TxnState.init []) =
      .ok (.ok (cell_to_vertex ⟨⟨9, 9⟩, 5, Value.Map adjFields⟩),
           ⟨[(⟨9, 9⟩, ⟨⟨9, 9⟩, 5, Value.Map adjFields⟩)], 0,
            [⟨⟨9, 9⟩, 5, Value.Map adjFields⟩], []⟩) :=
  ⟨(c10_new_vertex_atomic (fun _ _ => none) ⟨fun _ => none, fun _ => none⟩ 5 []
      (TxnState.init [])).1 NewVertexError.SchemaNotFound
      ((c10_new_vertex_atomic (fun _ _ => none) ⟨fun _ => none, fun _ => none⟩ 5 []
        (TxnState.init [])).2.1 rfl),
   (c10_new_vertex_atomic (fun s v => some ⟨⟨9, 9⟩, s.id, v⟩)
      ⟨fun _ => some SchemaType.Vertex,
       fun n => some (Schema.new_with_id n "v" none ⟨"f"⟩)⟩ 5 []
      (TxnState.init [])).2.2.2.2.2.2 ⟨⟨9, 9⟩, 5, Value.Map adjFields⟩ rfl⟩

/-- C4: for every vertex creation with a valid vertex schema and a map-valued
data argument (binding none of the reserved adjacency key ids), the cell
passed to the store — and the cell written on a successful transactional
creation — carries, in addition to the user data, exactly the three adjacency
fields (inbound, outbound, undirected list heads), each initialized to the
null unit identifier. The cell builder is the external neb Cell::new; the
hpres hypothesis states the spec's contract that the built cell holds the
data it was given (§6, §8). -/
theorem c4_vertex_cell_three_adjacency (cellNew : Schema → Value → Option Cell)
    (schemas : SchemaContainer) (schema_id : Nat) (data : Map) (ns : Schema)
    (st : TxnState)
    (hpres : ∀ s v c, cellNew s v = some c → c.data = v)
    (hst : schemas.schema_type schema_id = some SchemaType.Vertex)
    (hns : schemas.get_neb_schema schema_id = some ns)
    (hin : Map.lookup_id data INBOUND_KEY_ID = none)
    (hout : Map.lookup_id data OUTBOUND_KEY_ID = none)
    (hund : Map.lookup_id data UNDIRECTED_KEY_ID = none) :
    (∀ cell, vertex_to_cell_for_write cellNew schemas (Vertex.new schema_id data) = .ok cell →
      cell.data = Value.Map (data ++ adjFields)) ∧
    (∀ v st2, GraphTransaction.new_vertex cellNew schemas schema_id data st =
        .ok (.ok v, st2) →
      ∃ cell, st2.writes = st.writes ++ [cell] ∧
        cell.data = Value.Map (data ++ adjFields)) := by
  have h3 := insert_adj_three data hin hout hund
  have main : ∀ cell,
      vertex_to_cell_for_write cellNew schemas (Vertex.new schema_id data) = .ok cell →
      cell.data = Value.Map (data ++ adjFields) := by
    intro cell h
    simp only [vertex_to_cell_for_write, Vertex.new, Vertex.schema, hst, hns] at h
    rw [h3] at h
    cases hc : cellNew ns (Value.Map (data ++ adjFields)) with
    | none => simp [hc] at h
    | some c =>
      rw [hc] at h
      simp only [ne_eq, reduceCtorEq, not_false_eq_true, if_false] at h
      cases h
      exact hpres _ _ _ hc
  refine ⟨main, ?_⟩
  intro v st2 h
  cases hv : vertex_to_cell_for_write cellNew schemas (Vertex.new schema_id data) with
  | error e =>
    simp only [GraphTransaction.new_vertex, hv] at h
    simp at h
  | ok cell =>
    simp only [GraphTransaction.new_vertex, hv, Transaction.write] at h
    injection h with h1
    injection h1 with h2 h3
    refine ⟨cell, ?_, main cell hv⟩
    rw [← h3]

/-- Witness for C4 at concrete inputs: a one-field user map under a vertex
schema and a data-preserving cell builder; both conclusions are obtained by
applying the theorem. -/
theorem c4_vertex_cell_three_adjacency_witness :
    (∀ cell, vertex_to_cell_for_write (fun s v => some ⟨⟨9, 9⟩, s.id, v⟩)
        ⟨fun _ => some SchemaType.Vertex,
         fun n => some (Schema.new_with_id n "v" none ⟨"f"⟩)⟩
        (Vertex.new 5 [(10, Value.U64 42)]) = .ok cell →
      cell.data = Value.Map ([(10, Value.U64 42)] ++ adjFields)) ∧
    (∀ v st2, GraphTransaction.new_vertex (fun s v => some ⟨⟨9, 9⟩, s.id, v⟩)
        ⟨fun _ => some SchemaType.Vertex,
         fun n => some (Schema.new_with_id n "v" none ⟨"f"⟩)⟩ 5 [(10, Value.U64 42)]
        (TxnState.init []) = .ok (.ok v, st2) →
      ∃ cell, st2.writes = [] ++ [cell] ∧
        cell.data = Value.Map ([(10, Value.U64 42)] ++ adjFields)) :=
  c4_vertex_cell_three_adjacency (fun s v => some ⟨⟨9, 9⟩, s.id, v⟩)
    ⟨fun _ => some SchemaType.Vertex, fun n => some (Schema.new_with_id n "v" none ⟨"f"⟩)⟩
    5 [(10, Value.U64 42)] (Schema.new_with_id 5 "v" none ⟨"f"⟩) (TxnState.init [])
    (fun s v c h => by
      simp only [Option.some.injEq] at h
      rw [← h]) rfl rfl rfl rfl rfl

/-- C5: Graph construction bootstraps the two built-in Id List schemas as an
upsert-if-absent — against a catalog already holding both, construction
succeeds with no registration performed; and a failing bootstrap
registration (of either missing schema) makes construction fail with that
error. -/
theorem c5_bootstrap_idempotent (schemas : SchemaContainer)
    (reg : Schema → Except ExecError Unit) :
    (∀ s1 s2, schemas.get_neb_schema ID_LIST_SCHEMA_ID = some s1 →
      schemas.get_neb_schema TYPE_LIST_SCHEMA_ID = some s2 →
      Graph.new schemas reg = .ok (⟨schemas⟩, [])) ∧
    (∀ e, schemas.get_neb_schema ID_LIST_SCHEMA_ID = none →
      reg (Schema.new_with_id ID_LIST_SCHEMA_ID "_NEB_ID_LIST" none ID_LINKED_LIST) =
        .error e →
      Graph.new schemas reg = .error e) ∧
    (∀ s1 e, schemas.get_neb_schema ID_LIST_SCHEMA_ID = some s1 →
      schemas.get_neb_schema TYPE_LIST_SCHEMA_ID = none →
      reg (Schema.new_with_id TYPE_LIST_SCHEMA_ID "_NEB_TYPE_ID_LIST" none ID_TYPE_LIST) =
        .error e →
      Graph.new schemas reg = .error e) := by
  refine ⟨?_, ?_, ?_⟩
  · intro s1 s2 h1 h2
    simp [Graph.new, Graph.check_base_schemas, Graph.check_schema, h1, h2]
  · intro e h1 h2
    simp [Graph.new, Graph.check_base_schemas, Graph.check_schema, h1, h2]
  · intro s1 e h1 h2 h3
    simp [Graph.new, Graph.check_base_schemas, Graph.check_schema, h1, h2, h3]

/-- Witness for C5 at concrete inputs: a fully-initialized catalog registers
nothing and succeeds; an empty catalog with a failing registration client
fails construction with that error. -/
theorem c5_bootstrap_idempotent_witness :
    Graph.new ⟨fun _ => none, fun n => some (Schema.new_with_id n "s" none ⟨"f"⟩)⟩
        (fun _ => .ok ()) =
      .ok (⟨⟨fun _ => none, fun n => some (Schema.new_with_id n "s" none ⟨"f"⟩)⟩⟩, []) ∧
    Graph.new ⟨fun _ => none, fun _ => none⟩ (fun _ => .error ExecError.Unreachable) =
      .error ExecError.Unreachable :=
  ⟨(c5_bootstrap_idempotent ⟨fun _ => none, fun n => some (Schema.new_with_id n "s" none ⟨"f"⟩)⟩
      (fun _ => .ok ())).1 (Schema.new_with_id ID_LIST_SCHEMA_ID "s" none ⟨"f"⟩)
      (Schema.new_with_id TYPE_LIST_SCHEMA_ID "s" none ⟨"f"⟩) rfl rfl,
   (c5_bootstrap_idempotent ⟨fun _ => none, fun _ => none⟩
      (fun _ => .error ExecError.Unreachable)).2.1 ExecError.Unreachable rfl rfl⟩

/-- C7: Graph::read_vertex maps the store's cell-does-not-exist outcome to a
successful None, returns every other read error as ReadVertexError::ReadError
and a transport failure as ReadVertexError::RPCError, and hence get_vertex
after a successful remove_vertex_by_key on the same (schema_id, key) returns
a successful "not found", never a storage error. -/
theorem c7_read_vertex_not_found
    (readCell : Id → Except RPCError (Except ReadError Cell)) (id : Id) :
    (readCell id = .ok (.error ReadError.CellDoesNotExisted) →
      Graph.read_vertex readCell id = .ok none) ∧
    (∀ e : ReadError, e ≠ ReadError.CellDoesNotExisted → readCell id = .ok (.error e) →
      Graph.read_vertex readCell id = .error (ReadVertexError.ReadError e)) ∧
    (∀ er : RPCError, readCell id = .error er →
      Graph.read_vertex readCell id = .error (ReadVertexError.RPCError er)) ∧
    (∀ cell, readCell id = .ok (.ok cell) →
      Graph.read_vertex readCell id = .ok (some (cell_to_vertex cell))) ∧
    (∀ (g : Graph) (store : Store) (schema_id key : Nat) (store2 : Store),
      Graph.remove_vertex_by_key g store schema_id key = .ok store2 →
      Graph.get_vertex (Client.read_cell store2) schema_id key = .ok none) := by
  refine ⟨?_, ?_, ?_, ?_, ?_⟩
  · intro h
    simp [Graph.read_vertex, h]
  · intro e he h
    cases e with
    | CellDoesNotExisted => exact absurd rfl he
    | NetworkingError => simp [Graph.read_vertex, h]
  · intro er h
    simp [Graph.read_vertex, h]
  · intro cell h
    simp [Graph.read_vertex, h]
  · intro g store schema_id key store2 h
    simp only [Graph.remove_vertex_by_key, Graph.remove_vertex, Graph.graph_transaction,
      Client.transaction, GraphTransaction.remove_vertex, txn_remove, Transaction.read,
      Transaction.remove, TxnState.init] at h
    cases hsg : storeGet store (Cell.encode_cell_key schema_id key) with
    | none => rw [hsg] at h; simp at h
    | some c =>
      rw [hsg] at h
      simp only [Except.ok.injEq] at h
      rw [← h]
      simp [Graph.get_vertex, Graph.read_vertex, Client.read_cell,
        storeGet_storeErase_self]

/-- Witness for C7 at concrete inputs: a reader answering cell-does-not-exist
yields a successful None, and removing then getting the same key over the
sample store yields a successful None. -/
theorem c7_read_vertex_not_found_witness :
    Graph.read_vertex (fun _ => .ok (.error ReadError.CellDoesNotExisted)) ⟨5, 5⟩ =
      .ok none ∧
    Graph.get_vertex (Client.read_cell (storeErase sampleStore (Cell.encode_cell_key 5 5)))
        5 5 = .ok none :=
  ⟨(c7_read_vertex_not_found (fun _ => .ok (.error ReadError.CellDoesNotExisted))
      ⟨5, 5⟩).1 rfl,
   (c7_read_vertex_not_found (Client.read_cell sampleStore)
      (Cell.encode_cell_key 5 5)).2.2.2.2 ⟨sampleVertexCatalog⟩ sampleStore 5 5
      (storeErase sampleStore (Cell.encode_cell_key 5 5)) rfl⟩

/-- C6 counterexample: at the concrete input of an empty store, removing an
absent vertex is a domain-level removal failure — GraphTransaction's inner
result is RemoveError::CellNotFound — yet the facade Graph::remove_vertex
reports exactly this failure as TxnError::Aborted, so the facade does report
a domain-level removal failure as a transaction abort. -/
theorem c6_facade_abort_counterexample :
    GraphTransaction.remove_vertex ⟨7, 7⟩ (TxnState.init []) =
      .ok (.error RemoveError.CellNotFound, ⟨[], 1, [], []⟩) ∧
    Graph.remove_vertex ⟨⟨fun _ => none, fun _ => none⟩⟩ [] ⟨7, 7⟩ =
      .error TxnError.Aborted :=
  ⟨rfl, rfl⟩

/-- C6 amended: GraphTransaction::remove_vertex does report the domain-level
removal failure distinctly, as the inner error of its double-wrapped result;
but the facade Graph::remove_vertex (mod.rs line 148) converts every inner
domain removal failure into TxnError::Aborted, so at the facade a domain
removal failure is indistinguishable from a transaction abort. -/
theorem c6_facade_maps_domain_error_to_abort (g : Graph) (store : Store) (id : Id)
    (h : storeGet store id = none) :
    GraphTransaction.remove_vertex id (TxnState.init store) =
      .ok (.error RemoveError.CellNotFound, ⟨store, 1, [], []⟩) ∧
    Graph.remove_vertex g store id = .error TxnError.Aborted := by
  constructor
  · simp [GraphTransaction.remove_vertex, txn_remove, Transaction.read, TxnState.init, h]
  · simp [Graph.remove_vertex, Graph.graph_transaction, Client.transaction,
      GraphTransaction.remove_vertex, txn_remove, Transaction.read, TxnState.init, h]

/-- Witness for the amended C6 at a concrete input: a store holding only an
unrelated cell misses the removed id. -/
theorem c6_facade_maps_domain_error_to_abort_witness :
    GraphTransaction.remove_vertex ⟨8, 8⟩ (TxnState.init sampleStore) =
      .ok (.error RemoveError.CellNotFound, ⟨sampleStore, 1, [], []⟩) ∧
    Graph.remove_vertex ⟨sampleVertexCatalog⟩ sampleStore ⟨8, 8⟩ =
      .error TxnError.Aborted :=
  c6_facade_maps_domain_error_to_abort ⟨sampleVertexCatalog⟩ sampleStore ⟨8, 8⟩ rfl

/-- C1 counterexample: the claim "every public method of GraphTransaction
returns a double-wrapped result, in particular update_vertex and read_vertex"
is false on the code — update_vertex (mod.rs line 238) and read_vertex
(line 249) return single-wrapped Result<_, TxnError> with no inner
domain-error layer. -/
theorem c1_double_wrapping_counterexample :
    ¬ (∀ m : GTMethod, resultWrapping m = ResultWrapping.doubleWrapped) ∧
    resultWrapping GTMethod.update_vertex = ResultWrapping.singleWrapped ∧
    resultWrapping GTMethod.read_vertex = ResultWrapping.singleWrapped := by
  refine ⟨fun h => ?_, rfl, rfl⟩
  have hu := h GTMethod.update_vertex
  simp [resultWrapping] at hu

/-- C1 amended: every public method of GraphTransaction except update_vertex,
update_vertex_by_key, read_vertex and get_vertex returns the double-wrapped
result (outer transaction-engine failure, inner domain validation failure);
those four return a single-wrapped Result with only the outer TxnError
layer. -/
theorem c1_double_wrapping_amended (m : GTMethod)
    (h1 : m ≠ GTMethod.update_vertex) (h2 : m ≠ GTMethod.update_vertex_by_key)
    (h3 : m ≠ GTMethod.read_vertex) (h4 : m ≠ GTMethod.get_vertex) :
    resultWrapping m = ResultWrapping.doubleWrapped := by
  cases m <;>
    first
    | rfl
    | exact absurd rfl h1
    | exact absurd rfl h2
    | exact absurd rfl h3
    | exact absurd rfl h4

/-- Witness for the amended C1 at a concrete method: link is none of the four
excluded methods and is double-wrapped. -/
theorem c1_double_wrapping_amended_witness :
    GTMethod.link ≠ GTMethod.update_vertex ∧
    resultWrapping GTMethod.link = ResultWrapping.doubleWrapped :=
  ⟨by decide,
   c1_double_wrapping_amended GTMethod.link (by decide) (by decide) (by decide) (by decide)⟩

/-- C3: when the adjacency Id List loads successfully with member list `ids`,
neighbourhoods resolves exactly those members, in Id List order and
fail-fast, issuing no writes or removes: its inner result equals the spec's
in-order fail-fast resolution `resolveAllSpec`, which returns the first
member-resolution error in place of any partial list and, when every member
resolves, the resolved edges in Id List order. -/
theorem c3_neighbourhoods_fail_fast_in_order (schemas : SchemaContainer)
    (vertex_id : Id) (schema_id : Nat) (ed : EdgeDirection) (st : TxnState)
    (ids : List Id) (st1 : TxnState)
    (hall : IdList.all vertex_id ed.as_field schema_id st = .ok (.ok ids, st1)) :
    (∃ st2, GraphTransaction.neighbourhoods schemas vertex_id schema_id ed st =
        .ok (resolveAllSpec schemas st1.store vertex_id ids, st2) ∧
      st2.writes = st1.writes ∧ st2.removes = st1.removes) ∧
    (∀ l1 i l2 e, ids = l1 ++ i :: l2 →
      (∀ j ∈ l1, ∃ ej, resolveEdge schemas st1.store vertex_id j = .ok ej) →
      resolveEdge schemas st1.store vertex_id i = .error e →
      resolveAllSpec schemas st1.store vertex_id ids = .error e) ∧
    (∀ es, List.Forall₂
        (fun j ej => resolveEdge schemas st1.store vertex_id j = .ok ej) ids es →
      resolveAllSpec schemas st1.store vertex_id ids = .ok es) := by
  refine ⟨?_, ?_, ?_⟩
  · obtain ⟨st2, heq, hstore, hw, hrem⟩ :=
      neighbourhoodsLoop_eq_resolveAllSpec schemas vertex_id ed.as_field schema_id ids [] st1
    refine ⟨st2, ?_, hw, hrem⟩
    simp only [GraphTransaction.neighbourhoods, hall]
    rw [heq]
    cases hres : resolveAllSpec schemas st1.store vertex_id ids <;> simp [hres]
  · intro l1 i l2 e hids hok hbad
    subst hids
    clear hall
    induction l1 with
    | nil => simp [resolveAllSpec, hbad]
    | cons j tl ih =>
      obtain ⟨ej, hj⟩ := hok j (by simp)
      have hrest := ih (fun x hx => hok x (by simp [hx]))
      simp [resolveAllSpec, hj, hrest]
  · intro es hfa
    clear hall
    induction hfa with
    | nil => rfl
    | cons hj hrest ih => simp [resolveAllSpec, hj, ih]

/-- Witness for C3 at concrete inputs: over the sample store, the Id List of
(vertex ⟨0,0⟩, Outbound, edge schema 4) loads with one member, and
neighbourhoods returns the spec's in-order fail-fast resolution of it. -/
theorem c3_neighbourhoods_fail_fast_in_order_witness :
    ∃ st2, GraphTransaction.neighbourhoods sampleVertexCatalog ⟨0, 0⟩ 4
        EdgeDirection.Outbound (TxnState.init sampleStore) =
      .ok (resolveAllSpec sampleVertexCatalog sampleStore ⟨0, 0⟩ [⟨5, 5⟩], st2) ∧
      st2.writes = [] ∧ st2.removes = [] := by
  obtain ⟨⟨st2, heq, hw, hrem⟩, _, _⟩ :=
    c3_neighbourhoods_fail_fast_in_order sampleVertexCatalog ⟨0, 0⟩ 4
      EdgeDirection.Outbound (TxnState.init sampleStore) [⟨5, 5⟩]
      ⟨sampleStore, 1, [], []⟩ rfl
  exact ⟨st2, heq, hw, hrem⟩

end Morpheus
